import Mathlib

/-!
Shallow embedding of the EvMenu menu engine (src/evennia/utils/evmenu.py).

The engine drives an interactive text menu: each node is a Python function
returning a text plus option records, and user input is dispatched through
`parse_input` / `run_exec_then_goto` / `goto`.  Python dynamic values are
embedded as the inductive `PyVal`; Python callables are embedded as `PyFun`
records carrying the declared signature shape (positional-argument count and
whether `**kwargs` is accepted) plus an implementation function.  Callable
values inside `PyVal` are represented by name and resolved through an
environment table, mirroring the fact that the Python function space is
external to the data.

External collaborators that the module only calls at an interface boundary
(ANSI markup stripping, node-text rendering, `fnmatch` glob matching and
`re` regex matching) are passed in as function parameters, as the spec
specifies them only at their boundary.

Python exceptions are modelled by the `Exc` inductive; engine operations
return `Res α = List String × Except Exc α` where the first component is the
ordered list of texts sent to the actor via `self.msg`.
-/

namespace EvMenuModel

/-- Embedded Python runtime values, restricted to the shapes the menu engine
manipulates.  Callables are represented by name (`pyfun`) and interpreted
through an environment. -/
inductive PyVal where
  | pynone
  | pybool (b : Bool)
  | pyint (n : Int)
  | pystr (s : String)
  | pyfun (name : String)
  | pytuple (xs : List PyVal)
  | pydict (xs : List (String × PyVal))

/-- Python exceptions relevant to the engine.  `evmenu` is `EvMenuError`,
`abortMsg` is `EvMenuGotoAbortMessage` (a sibling RuntimeError subclass, not
an `EvMenuError`), `userError` stands for an arbitrary exception raised by
application-supplied callback code. -/
inductive Exc where
  | evmenu (msg : String)
  | abortMsg (msg : String)
  | keyError (msg : String)
  | valueError (msg : String)
  | typeError (msg : String)
  | indexError (msg : String)
  | userError (msg : String)
deriving Repr, DecidableEq

/-- Keyword-argument bag (a Python dict with string keys). -/
abbrev Kwargs := List (String × PyVal)

/-- The signature shape `getargspec` reports for a callable: the number of
declared positional parameters (the actor parameter included) and whether an
open `**kwargs` is declared. -/
structure FunSig where
  nargs : Nat
  keywords : Bool
deriving Repr, DecidableEq

/-- The argument set actually supplied to a callable by the invocation
adapter `_safe_call`: the actor (always), the raw input string (only when a
second positional parameter is declared), and the keyword set (only when
`**kwargs` is declared). -/
structure CallArgs where
  callerPassed : Bool
  rawArg : Option String
  kwargsArg : Option Kwargs

/-- An embedded Python callable: a display name, the declared signature
shape, and the behaviour as a function from supplied arguments to a result
or a raised exception. -/
structure PyFun where
  name : String
  sig : FunSig
  impl : CallArgs → Except Exc PyVal

/-- External collaborators used purely at their interface boundary:
ANSI markup stripping and display formatting. -/
structure Ext where
  stripAnsi : String → String
  formatNode : String → List (PyVal × PyVal) → String
  helptextFormatter : PyVal → String

/-- The static data of a running menu: the resolved node table
(`self._menutree`), the table interpreting callable names, and the external
collaborators. -/
structure Env where
  menutree : List (String × PyFun)
  funs : List (String × PyFun)
  ext : Ext

/-- A dispatch-table entry: `(goto, goto_kwargs, exec, exec_kwargs)` as
extracted from an option record by `extract_goto_exec`. -/
structure OptEntry where
  goto : PyVal
  gotoKwargs : PyVal
  execute : PyVal
  execKwargs : PyVal

/-- Engine session state (the mutable `self.*` fields of `EvMenu` relevant
to dispatch), plus the session-attachment bookkeeping: `attached` models
`caller.ndb._evmenu` pointing at this engine together with the menu command
set being installed, and `hookRuns` logs each invocation of the terminal
hook `cmd_on_exit` (by hook name). -/
structure MenuState where
  nodename : PyVal
  nodetext : String
  helptext : String
  options : List (String × OptEntry)
  default : Option OptEntry
  nodeKwargs : Kwargs
  autoQuit : Bool
  autoLook : Bool
  autoHelp : Bool
  debugMode : Bool
  cmdOnExit : Option String
  quitting : Bool
  attached : Bool
  hookRuns : List String

/-- An operation result: the ordered list of texts sent to the actor, and
either a value or a propagating exception. -/
abbrev Res (α : Type) := List String × Except Exc α

/-- `str.rstrip()`: drop trailing whitespace.  (All string helpers here are
written by structural recursion over the character list so that concrete
runs reduce definitionally.) -/
def rstripStr (s : String) : String :=
  String.mk ((s.data.reverse.dropWhile Char.isWhitespace).reverse)

/-- `str.strip()`: drop leading and trailing whitespace. -/
def pyStrip (s : String) : String :=
  String.mk
    (((s.data.dropWhile Char.isWhitespace).reverse.dropWhile
      Char.isWhitespace).reverse)

/-- `str.lower()` (ASCII case folding suffices for the engine commands). -/
def strLower (s : String) : String :=
  String.mk (s.data.map Char.toLower)

/-- `len(s) == 0`. -/
def strIsEmpty (s : String) : Bool :=
  s.data.isEmpty

/-- `s.startswith(pre)`. -/
def strStartsWith (s pre : String) : Bool :=
  List.isPrefixOf pre.data s.data

/-- `s[:n]`. -/
def strTake (s : String) (n : Nat) : String :=
  String.mk (s.data.take n)

/-- `s[n:]`. -/
def strDrop (s : String) (n : Nat) : String :=
  String.mk (s.data.drop n)

/-- Python truthiness for embedded values. -/
def pyTruthy : PyVal → Bool
  | .pynone => false
  | .pybool b => b
  | .pyint n => n != 0
  | .pystr s => !strIsEmpty s
  | .pyfun _ => true
  | .pytuple xs => !xs.isEmpty
  | .pydict xs => !xs.isEmpty

/-- Evennia `is_iter`: iterable but with strings deliberately excluded. -/
def isIter : PyVal → Bool
  | .pytuple _ => true
  | .pydict _ => true
  | _ => false

/-- Evennia `make_iter`: wrap a non-iterable in a one-element list. -/
def makeIter (v : PyVal) : PyVal :=
  if isIter v then v else .pytuple [v]

/-- The elements obtained by iterating an embedded value (a dict yields its
keys, as in Python). -/
def membersOf : PyVal → List PyVal
  | .pytuple xs => xs
  | .pydict d => d.map (fun kv => .pystr kv.1)
  | v => [v]

/-- Display rendering `str(v)`; only the string case is ever compared by the
engine, the rest is display-only. -/
def pyStrOf : PyVal → String
  | .pynone => "None"
  | .pybool b => if b then "True" else "False"
  | .pyint n => toString n
  | .pystr s => s
  | .pyfun n => n
  | .pytuple _ => "tuple"
  | .pydict _ => "dict"

/-- Association lookup on a Python dict with string keys. -/
def assocLookup (l : List (String × α)) (k : String) : Option α :=
  match l with
  | [] => none
  | (k2, v) :: rest => if k2 = k then some v else assocLookup rest k

/-- Python dict assignment `d[k] = v`: replace in place, else append. -/
def setAssoc (l : List (String × α)) (k : String) (v : α) : List (String × α) :=
  match l with
  | [] => [(k, v)]
  | (k2, v2) :: rest =>
    if k2 = k then (k, v) :: rest else (k2, v2) :: setAssoc rest k v

/-- Did a key value compare equal to the special alias marker. -/
def isDefaultKey : PyVal → Bool
  | .pystr s => s == "_default"
  | _ => false

/-- Return message constants of the module (ASCII apostrophes elided from
the literals; the texts are opaque tokens for the model). -/
def errGeneralMsg (nodename : String) : String :=
  "Error in menu node " ++ nodename ++ "."

/-- `_ERR_NOT_IMPLEMENTED` formatted with a node name. -/
def errNotImplementedMsg (nodename : String) : String :=
  "Menu node " ++ nodename ++ " is either not implemented or caused an error. Make another choice or try q to abort."

/-- `_HELP_FULL`. -/
def helpFullMsg : String := "Commands: <menu option>, help, quit"

/-- `_HELP_NO_QUIT`. -/
def helpNoQuitMsg : String := "Commands: <menu option>, help"

/-- `_HELP_NO_OPTIONS`. -/
def helpNoOptionsMsg : String := "Commands: help, quit"

/-- `_HELP_NO_OPTIONS_NO_QUIT`. -/
def helpNoOptionsNoQuitMsg : String := "Commands: help"

/-- `_HELP_NO_OPTION_MATCH`. -/
def helpNoOptionMatchMsg : String := "Choose an option or try help."

/-- Placeholder for the introspection text built by `print_debug_info`
(pure display formatting over `inspect`, abstracted to a marker). -/
def menudebugMsg : String := "MENU DEBUG"

/-- The `EvMenuError` message for a callable with no declared parameters. -/
def noArgsMsg (name : String) : String :=
  "Callable " ++ name ++ " does not accept any arguments!"

/-- The `EvMenuError` message for a goto callable returning the wrong shape. -/
def gotoCallableRetMsg (name : String) : String :=
  name ++ ": goto callable must return str or (str, dict)"

/-- The `EvMenuError` message for an exec callable returning the wrong shape. -/
def execCallableRetMsg : String :=
  "exec callable must return either None, str or (str, dict)"

/-- The red-wrapped error line `run_exec` sends when catching `EvMenuError`. -/
def execErrMsg (nodenameV : PyVal) (raw : String) (err : String) : String :=
  "|rError in exec " ++ pyStrOf nodenameV ++ " (input: " ++ rstripStr raw
    ++ "): " ++ err ++ "|n"

/-- The argument set `_safe_call` supplies for a declared signature shape:
the actor always, the raw input string only when a second positional
parameter is declared (`nargs > 1`), the keyword set only when `**kwargs`
is declared. -/
def mkCallArgs (sig : FunSig) (raw : String) (kwargs : Kwargs) : CallArgs :=
  { callerPassed := true
    rawArg := if sig.nargs > 1 then some raw else none
    kwargsArg := if sig.keywords then some kwargs else none }

/-- The `except EvMenuError` handler of `_safe_call`: an `EvMenuError` is
reported to the actor with the generic message and re-raised; all other
outcomes pass through. -/
def safeWrap (name : String) : Except Exc PyVal → Res PyVal
  | .error (.evmenu m) => ([errGeneralMsg name], .error (.evmenu m))
  | r => ([], r)

/-- `EvMenu._safe_call` on an already-resolved callable: reject a callable
declaring no positional parameters at all with `EvMenuError`, otherwise
invoke it with exactly the arguments its declared shape accepts. -/
def safeCallF (f : PyFun) (raw : String) (kwargs : Kwargs) : Res PyVal :=
  if f.sig.nargs = 0 then
    ([errGeneralMsg f.name], .error (.evmenu (noArgsMsg f.name)))
  else
    safeWrap f.name (f.impl (mkCallArgs f.sig raw kwargs))

/-- `_safe_call` on a callable value, resolving the name through the
environment; an unresolvable callable behaves like the `getargspec`
TypeError path (an `EvMenuError`). -/
def callFun (env : Env) (name : String) (raw : String) (kwargs : Kwargs) :
    Res PyVal :=
  match assocLookup env.funs name with
  | some f => safeCallF f raw kwargs
  | none => ([errGeneralMsg name], .error (.evmenu (noArgsMsg name)))

/-- The destructuring `_execute_node` applies to a node result: a tuple or
list of length at least two yields `(nodetext, options)`, anything else is
the node text with `options = None`. -/
def destructNodeRet : PyVal → PyVal × PyVal
  | .pytuple (a :: b :: _) => (a, b)
  | v => (v, .pynone)

/-- `EvMenu._execute_node`: look the node up in the menu tree (a missing or
non-string name is the KeyError path), inject `_current_nodename` into the
keyword set, call the node through `_safe_call`, and destructure the result.
A KeyError from the call is converted to `EvMenuError` after the
not-implemented message; any other exception (the re-raised `EvMenuError`
included) is reported with the generic node message and re-raised. -/
def executeNode (env : Env) (nodenameV : PyVal) (raw : String)
    (kwargs : Kwargs) : Res (PyVal × PyVal) :=
  match (match nodenameV with
         | .pystr s => assocLookup env.menutree s
         | _ => none) with
  | none => ([errNotImplementedMsg (pyStrOf nodenameV)], .error (.evmenu ""))
  | some node =>
    let kwargs2 := setAssoc kwargs "_current_nodename" nodenameV
    match safeCallF node raw kwargs2 with
    | (ms, .ok ret) => (ms, .ok (destructNodeRet ret))
    | (ms, .error (.keyError _)) =>
      (ms ++ [errNotImplementedMsg (pyStrOf nodenameV)], .error (.evmenu ""))
    | (ms, .error e) =>
      (ms ++ [errGeneralMsg (pyStrOf nodenameV)], .error e)

/-- Python `hasattr(x, "__getitem__")`: true for dicts, sequences and
strings (so a string passes the kwargs shape check in
`extract_goto_exec`, as in the source). -/
def hasGetitem : PyVal → Bool
  | .pydict _ => true
  | .pytuple _ => true
  | .pystr _ => true
  | _ => false

/-- One directive of `extract_goto_exec`: a truthy tuple or list of length
at least two is split into `(directive, kwargs)` with the kwargs only
required to support item lookup, a one-element tuple is unwrapped, and any
other value is kept with empty kwargs. -/
def extractDirective (nmShown : String) (what : String) (v : PyVal) :
    Except Exc (PyVal × PyVal) :=
  if pyTruthy v then
    match v with
    | .pytuple (a :: b :: _) =>
      if hasGetitem b then .ok (a, b)
      else .error (.evmenu ("EvMenu node " ++ nmShown ++ ": " ++ what
        ++ " kwargs is not a dict: " ++ pyStrOf b))
    | .pytuple [a] => .ok (a, .pydict [])
    | _ => .ok (v, .pydict [])
  else .ok (v, .pydict [])

/-- `EvMenu.extract_goto_exec`: split an option record into
`(goto, goto_kwargs, exec, exec_kwargs)`. -/
def extractGotoExec (nmShown : String) (dic : List (String × PyVal)) :
    Except Exc OptEntry :=
  let goto0 := (assocLookup dic "goto").getD .pynone
  let exec0 := (assocLookup dic "exec").getD .pynone
  match extractDirective nmShown "goto" goto0 with
  | .error e => .error e
  | .ok (g, gk) =>
    match extractDirective nmShown "exec" exec0 with
    | .error e => .error e
    | .ok (e, ek) => .ok ⟨g, gk, e, ek⟩

/-- Normalise an option key for the lookup table:
`strip_ansi(key).strip().lower()`; a non-string key makes `strip_ansi`
fail, modelled as a TypeError. -/
def normKey (ext : Ext) : PyVal → Except Exc String
  | .pystr s => .ok (strLower (pyStrip (ext.stripAnsi s)))
  | _ => .error (.typeError "strip ansi expects a string")

/-- Insert one option record is keys into the lookup table, in order; the
entry is only added when the goto directive or the exec directive is
truthy. -/
def insertKeys (ext : Ext) (keys : List PyVal) (entry : OptEntry)
    (tbl : List (String × OptEntry)) :
    Except Exc (List (String × OptEntry)) :=
  match keys with
  | [] => .ok tbl
  | k :: rest =>
    if pyTruthy entry.goto || pyTruthy entry.execute then
      match normKey ext k with
      | .error e => .error e
      | .ok nk => insertKeys ext rest entry (setAssoc tbl nk entry)
    else insertKeys ext rest entry tbl

/-- Accumulator of the option loop in `EvMenu.goto`: the displayed
`(key, desc)` pairs, the input lookup table, and the `_default` entry. -/
structure OptAcc where
  disp : List (PyVal × PyVal)
  tbl : List (String × OptEntry)
  dflt : Option OptEntry

/-- One iteration of the option loop in `EvMenu.goto` (for option record
number `inum`, zero-based): a record whose keys include the special alias
`_default` has that alias filtered out and becomes the node default
(silently overwriting any earlier default); otherwise absent keys fall back
to the running number.  If any keys remain the option is appended to the
display list, and each key maps to the extracted directives in the lookup
table only when a goto or exec directive is present. -/
def stepOption (ext : Ext) (nmShown : String) (inum : Nat) (acc : OptAcc)
    (item : PyVal) : Except Exc OptAcc :=
  match item with
  | .pydict dic =>
    let keys0 := makeIter ((assocLookup dic "key").getD .pynone)
    let desc := (assocLookup dic "desc").getD
      ((assocLookup dic "text").getD .pynone)
    let isDflt := (membersOf keys0).any isDefaultKey
    let keys :=
      if isDflt then (membersOf keys0).filter (fun k => !isDefaultKey k)
      else membersOf (makeIter
        ((assocLookup dic "key").getD (.pystr (toString (inum + 1)))))
    match extractGotoExec nmShown dic with
    | .error e => .error e
    | .ok entry =>
      let acc1 : OptAcc :=
        if isDflt then { acc with dflt := some entry } else acc
      match keys with
      | [] => .ok acc1
      | k0 :: _ =>
        match insertKeys ext keys entry acc1.tbl with
        | .error e => .error e
        | .ok tbl2 =>
          .ok { acc1 with disp := acc1.disp ++ [(k0, desc)], tbl := tbl2 }
  | _ => .error (.typeError "option record is not a mapping")

/-- Run the option loop over a list of records. -/
def foldOptions (ext : Ext) (nmShown : String) (inum : Nat) (acc : OptAcc) :
    List PyVal → Except Exc OptAcc
  | [] => .ok acc
  | item :: rest =>
    match stepOption ext nmShown inum acc item with
    | .error e => .error e
    | .ok acc2 => foldOptions ext nmShown (inum + 1) acc2 rest

/-- The option normalisation of `EvMenu.goto`:
`options = [options] if isinstance(options, dict) else options`. -/
def normalizeOptions : PyVal → PyVal
  | .pydict d => .pytuple [.pydict d]
  | v => v

/-- Build display list, lookup table and default from the (already
normalised) options value: a falsy value yields the reset empty tables, a
truthy non-sequence fails as in Python, a sequence is folded record by
record. -/
def buildOptions (ext : Ext) (nmShown : String) (optionsN : PyVal) :
    Except Exc OptAcc :=
  if pyTruthy optionsN then
    match optionsN with
    | .pytuple items => foldOptions ext nmShown 0 ⟨[], [], none⟩ items
    | _ => .error (.typeError "options value is not iterable over records")
  else .ok ⟨[], [], none⟩

/-- `EvMenu.close_menu`: guarded by the `_quitting` flag, remove the menu
command set and the actor attachment, then run the terminal hook
`cmd_on_exit` exactly once. -/
def closeMenu (st : MenuState) : MenuState :=
  if st.quitting then st
  else
    { st with
      quitting := true
      attached := false
      hookRuns := st.hookRuns ++ (match st.cmdOnExit with
        | some h => [h]
        | none => []) }

/-- The node-text/help-text normalisation of `EvMenu.goto`: an iterable node
text of length at least two splits into `(text, help)`, a one-element
iterable is unwrapped, an empty tuple fails with IndexError and a mapping
fails as in Python. -/
def splitNodetext (nodetextV : PyVal) : Except Exc (PyVal × PyVal) :=
  if isIter nodetextV then
    match nodetextV with
    | .pytuple (a :: b :: _) => .ok (a, b)
    | .pytuple [a] => .ok (a, .pystr "")
    | .pytuple [] => .error (.indexError "tuple index out of range")
    | .pydict d =>
      if d.length > 1 then .error (.typeError "unhashable slice")
      else .error (.keyError "0")
    | _ => .ok (nodetextV, .pystr "")
  else .ok (nodetextV, .pystr "")

/-- The tail of `EvMenu.goto` after the node has computed successfully
(source lines 994-1047): normalise the returned text and options, rebuild
the display list, lookup table and default, store the new session state,
display the node, and close the menu when the options are falsy. -/
def gotoFinish (env : Env) (st : MenuState) (nmV : PyVal) (kwargs : Kwargs)
    (nodetextV optionsV : PyVal) : Res MenuState :=
  match splitNodetext nodetextV with
  | .error e => ([], .error e)
  | .ok (ntV, htV) =>
    let ntStr := match ntV with
      | .pynone => ""
      | v => pyStrOf v
    let optionsN := normalizeOptions optionsV
    match buildOptions env.ext (pyStrOf nmV) optionsN with
    | .error e => ([], .error e)
    | .ok acc =>
      let nodetext := env.ext.formatNode ntStr acc.disp
      let helptext :=
        if pyTruthy htV then env.ext.helptextFormatter htV
        else if pyTruthy optionsN then
          (if st.autoQuit then helpFullMsg else helpNoQuitMsg)
        else
          (if st.autoQuit then helpNoOptionsMsg else helpNoOptionsNoQuitMsg)
      let st2 : MenuState :=
        { st with
          options := acc.tbl
          default := acc.dflt
          nodetext := nodetext
          helptext := helptext
          nodeKwargs := kwargs
          nodename := nmV }
      if pyTruthy optionsN then ([nodetext], .ok st2)
      else ([nodetext], .ok (closeMenu st2))

/-- The execute-and-finish tail of `EvMenu.goto`: an `EvMenuError` from node
execution leaves the session state unchanged; other exceptions propagate. -/
def gotoRun (env : Env) (st : MenuState) (nmV : PyVal) (raw : String)
    (kwargs : Kwargs) : Res MenuState :=
  match executeNode env nmV raw kwargs with
  | (ms, .error (.evmenu _)) => (ms, .ok st)
  | (ms, .error e) => (ms, .error e)
  | (ms, .ok (ntV, optV)) =>
    let (ms2, r) := gotoFinish env st nmV kwargs ntV optV
    (ms ++ ms2, r)

/-- `EvMenu.goto`: a callable target is invoked first and must return
nothing, a node name, or a `(name, kwargs)` pair (a malformed pair raises
`EvMenuError` that propagates uncaught); a falsy resolved name falls back
to re-running the current node.  The resolved node is then executed and the
session state rebuilt. -/
def gotoStep (env : Env) (st : MenuState) (nodenameV : PyVal) (raw : String)
    (kwargs : Kwargs) : Res MenuState :=
  match nodenameV with
  | .pyfun fname =>
    match callFun env fname raw kwargs with
    | (ms, .error e) => (ms, .error e)
    | (ms, .ok ret) =>
      match (match ret with
             | .pytuple (a :: b :: _) =>
               (match b with
                | .pydict d => .ok (a, d)
                | _ => .error (.evmenu (gotoCallableRetMsg fname)))
             | .pytuple _ => .error (.evmenu (gotoCallableRetMsg fname))
             | v => .ok (v, kwargs) : Except Exc (PyVal × Kwargs)) with
      | .error e => (ms, .error e)
      | .ok (nm, kw) =>
        let nm2 := if pyTruthy nm then nm else st.nodename
        let (ms2, r) := gotoRun env st nm2 raw kw
        (ms ++ ms2, r)
  | v => gotoRun env st v raw kwargs

/-- `EvMenu.run_exec`: run an exec directive in place.  A callable must
return `None`, a string or a `(string, dict)` pair; a node name is executed
in place (its malformed-return check is statically dead in the source, so a
node always destructures into `(nodetext, options)` here).  An `EvMenuError`
anywhere in this is caught, reported with the exec error line and swallowed
(`None` is returned).  A non-empty string result is returned together with
the current kwargs value; an empty string returns the current node name
(`self.nodename`); everything else returns `None`. -/
def runExecStep (env : Env) (st : MenuState) (nodenameV : PyVal)
    (raw : String) (kwargs : Kwargs) : Res PyVal :=
  let inner : Res (PyVal × PyVal) :=
    match nodenameV with
    | .pyfun fname =>
      match callFun env fname raw kwargs with
      | (ms, .error e) => (ms, .error e)
      | (ms, .ok ret) =>
        match ret with
        | .pytuple (a :: b :: _) =>
          (match b with
           | .pydict _ => (ms, .ok (a, b))
           | _ => (ms, .error (.evmenu execCallableRetMsg)))
        | .pytuple _ => (ms, .error (.evmenu execCallableRetMsg))
        | v => (ms, .ok (v, .pydict kwargs))
    | nmv =>
      match executeNode env nmv raw kwargs with
      | (ms, .error e) => (ms, .error e)
      | (ms, .ok (nt, opts)) => (ms, .ok (nt, opts))
  match inner with
  | (ms, .error (.evmenu m)) =>
    (ms ++ [execErrMsg nodenameV raw m], .ok .pynone)
  | (ms, .error e) => (ms, .error e)
  | (ms, .ok (ret, kwargsV)) =>
    match ret with
    | .pystr s =>
      if strIsEmpty s then (ms, .ok st.nodename)
      else (ms, .ok (.pytuple [.pystr s, kwargsV]))
    | _ => (ms, .ok .pynone)

/-- Python tuple unpacking `a, b = v` for the values `run_exec_then_goto`
can face: a two-element sequence unpacks, other sequence lengths raise
ValueError, a string unpacks character-wise (so only a two-character string
succeeds), a two-key dict yields its keys, anything else raises TypeError. -/
def unpack2 : PyVal → Except Exc (PyVal × PyVal)
  | .pytuple [a, b] => .ok (a, b)
  | .pytuple _ => .error (.valueError "unpack expected 2 values")
  | .pystr s =>
    if s.length = 2 then .ok (.pystr (strTake s 1), .pystr (strDrop s 1))
    else .error (.valueError "unpack expected 2 values")
  | .pydict d =>
    (match d with
     | [(k1, _), (k2, _)] => .ok (.pystr k1, .pystr k2)
     | _ => .error (.valueError "unpack expected 2 values"))
  | _ => .error (.typeError "cannot unpack non-iterable")

/-- Python `**(v if v else {})`: a falsy value contributes no keywords, a
truthy non-mapping raises TypeError. -/
def starstar (v : PyVal) : Except Exc Kwargs :=
  if pyTruthy v then
    match v with
    | .pydict d => .ok d
    | _ => .error (.typeError "argument after ** must be a mapping")
  else .ok []

/-- `EvMenu.run_exec_then_goto`: when an exec directive is present it runs
first; a truthy `run_exec` result is tuple-unpacked into the pending
`(goto, goto_kwargs)` (discarding the declared goto entirely), a falsy
result keeps the original pair.  The resulting goto, when truthy, is then
dispatched through `goto`. -/
def runExecThenGoto (env : Env) (st : MenuState) (runexecV gotoV : PyVal)
    (raw : String) (runexecKwargsV gotoKwargsV : PyVal) : Res MenuState :=
  let step : Res (PyVal × PyVal) :=
    if pyTruthy runexecV then
      match starstar runexecKwargsV with
      | .error e => ([], .error e)
      | .ok ek =>
        match runExecStep env st runexecV raw ek with
        | (ms, .error e) => (ms, .error e)
        | (ms, .ok r) =>
          let chosen := if pyTruthy r then r
            else .pytuple [gotoV, gotoKwargsV]
          match unpack2 chosen with
          | .error e => (ms, .error e)
          | .ok gg => (ms, .ok gg)
    else ([], .ok (gotoV, gotoKwargsV))
  match step with
  | (ms, .error e) => (ms, .error e)
  | (ms, .ok (g, gk)) =>
    if pyTruthy g then
      match starstar gk with
      | .error e => (ms, .error e)
      | .ok gkd =>
        let (ms2, r) := gotoStep env st g raw gkd
        (ms ++ ms2, r)
    else (ms, .ok st)

/-- The input normalisation of `parse_input`:
`strip_ansi(raw_string.strip().lower())`. -/
def normInput (env : Env) (raw : String) : String :=
  env.ext.stripAnsi (strLower (pyStrip raw))

/-- The `except EvMenuGotoAbortMessage` handler of `parse_input`: the abort
message is sent and the session stays on the current node unchanged. -/
def catchAbort (st : MenuState) : Res MenuState → Res MenuState
  | (ms, .error (.abortMsg m)) => (ms ++ [m], .ok st)
  | r => r

/-- The look-builtin condition of `parse_input`:
`self.auto_look and cmd in ("look", "l")`. -/
def lookHit (st : MenuState) (cmd : String) : Bool :=
  st.autoLook && (cmd == "look" || cmd == "l")

/-- The help-builtin condition of `parse_input`:
`self.auto_help and cmd in ("help", "h")`. -/
def helpHit (st : MenuState) (cmd : String) : Bool :=
  st.autoHelp && (cmd == "help" || cmd == "h")

/-- The quit-builtin condition of `parse_input`:
`self.auto_quit and cmd in ("quit", "q", "exit")`. -/
def quitHit (st : MenuState) (cmd : String) : Bool :=
  st.autoQuit && (cmd == "quit" || cmd == "q" || cmd == "exit")

/-- The debug condition of `parse_input`:
`self.debug_mode and cmd.startswith("menudebug")`. -/
def debugHit (st : MenuState) (cmd : String) : Bool :=
  st.debugMode && strStartsWith cmd "menudebug"

/-- `EvMenu.parse_input`: normalise the raw input and dispatch in order —
exact option-table match first, then the built-in look/help/quit commands
(when the corresponding auto flag is set) and the debug command, then the
node default, and finally the no-match message leaving state unchanged.
The whole dispatch runs under the abort-message handler. -/
def parseInput (env : Env) (st : MenuState) (raw : String) : Res MenuState :=
  let cmd := normInput env raw
  catchAbort st
    (if !st.options.isEmpty && (assocLookup st.options cmd).isSome then
      match assocLookup st.options cmd with
      | some e =>
        runExecThenGoto env st e.execute e.goto raw e.execKwargs e.gotoKwargs
      | none => ([], .ok st)
    else if lookHit st cmd then
      ([st.nodetext], .ok st)
    else if helpHit st cmd then
      ([st.helptext], .ok st)
    else if quitHit st cmd then
      ([], .ok (closeMenu st))
    else if debugHit st cmd then
      ([menudebugMsg], .ok st)
    else
      match st.default with
      | some e =>
        runExecThenGoto env st e.execute e.goto raw e.execKwargs e.gotoKwargs
      | none => ([helpNoOptionMatchMsg], .ok st))

/-- The actor-side attachment slot `caller.ndb._evmenu`. -/
structure Actor where
  evmenu : Option MenuState

/-- The session-replacement slice of `EvMenu.__init__` (source lines
619-628): when an engine is already attached to the actor it is closed via
`close_menu` (exceptions swallowed), then the new engine is stored as the
attachment.  The second component is the terminal-hook log of the closed
previous engine. -/
def attachMenu (a : Actor) (m : MenuState) : Actor × List String :=
  match a.evmenu with
  | some old =>
    ({ evmenu := some { m with attached := true } }, (closeMenu old).hookRuns)
  | none => ({ evmenu := some { m with attached := true } }, [])

/-- The page slicing of `list_node._list_node`:
`[option_list[ind:ind+pagesize] for ind in range(0, n, pagesize)]`,
written with an explicit fuel equal to the list length (sufficient for any
positive page size). -/
def pyChunksAux (ps : Nat) : Nat → List α → List (List α)
  | 0, _ => []
  | _, [] => []
  | fuel + 1, x :: xs =>
    (x :: xs).take ps :: pyChunksAux ps fuel ((x :: xs).drop ps)

/-- Slice a list into pages of `ps` elements. -/
def pyChunks (l : List α) (ps : Nat) : List (List α) :=
  pyChunksAux ps l.length l

/-- The page computation of `_list_node`: page count, clamped page index
and visible page. -/
structure ListCore where
  npages : Nat
  pageIndex : Int
  page : List String

/-- The page computation of `_list_node`: an empty backing list keeps the
zero defaults, otherwise the list is sliced into pages and the requested
page index is clamped by `max(0, min(npages - 1, requested))`. -/
def listNodeCore (optionList : List String) (pagesize : Nat)
    (requested : Int) : ListCore :=
  if optionList.isEmpty then ⟨0, 0, []⟩
  else
    let pages := pyChunks optionList pagesize
    let npages := pages.length
    let pageIndex := max 0 (min ((npages : Int) - 1) requested)
    ⟨npages, pageIndex, pages.getD pageIndex.toNat []⟩

/-- The per-item options of `_list_node`: one option per visible item whose
goto forwards the visible page to the selection handler. -/
def selectOptions (page : List String) : List PyVal :=
  page.map (fun opt => .pydict
    [("desc", .pystr opt),
     ("goto", .pytuple [.pyfun "_select_handler",
       .pydict [("available_choices", .pytuple (page.map .pystr))]])])

/-- The current-page indicator option. -/
def currentPageOpt (npages : Nat) (pageIndex : Int) : PyVal :=
  .pydict
    [("key", .pytuple [.pystr "|Wcurrent|n", .pystr "c"]),
     ("desc", .pystr ("|W(" ++ toString (pageIndex + 1) ++ "/"
       ++ toString npages ++ ")|n")),
     ("goto", .pytuple [.pyfun "_stay",
       .pydict [("optionpage_index", .pyint pageIndex)]])]

/-- The previous-page option. -/
def prevPageOpt (pageIndex : Int) : PyVal :=
  .pydict
    [("key", .pytuple [.pystr "|wp|Wrevious page|n", .pystr "p"]),
     ("goto", .pytuple [.pyfun "_stay",
       .pydict [("optionpage_index", .pyint (pageIndex - 1))]])]

/-- The next-page option. -/
def nextPageOpt (pageIndex : Int) : PyVal :=
  .pydict
    [("key", .pytuple [.pystr "|wn|Wext page|n", .pystr "n"]),
     ("goto", .pytuple [.pyfun "_stay",
       .pydict [("optionpage_index", .pyint (pageIndex + 1))]])]

/-- The paging controls of `_list_node`: only pagers with more than one
page get controls; the current-page indicator is always present then, the
previous control exactly when the page index is positive, the next control
exactly when it is below the last page. -/
def pagingControls (npages : Nat) (pageIndex : Int) : List PyVal :=
  if 1 < npages then
    [currentPageOpt npages pageIndex]
      ++ (if 0 < pageIndex then [prevPageOpt pageIndex] else [])
      ++ (if pageIndex < (npages : Int) - 1 then [nextPageOpt pageIndex]
          else [])
  else []

/-- The decorated-option rewriting of `_list_node`: a goto (or else exec)
directive of an extra option is rewritten so the visible page is threaded
through as `available_choices`; a plain string directive is left alone.
(The dict-shaped directive corner that would fail in Python is mapped to
the malformed-option branch, which keeps the option unchanged.) -/
def rewriteOption (page : List String) (eopt : PyVal) : PyVal :=
  match eopt with
  | .pydict d =>
    let pageV : PyVal := .pytuple (page.map .pystr)
    let cback := if (assocLookup d "goto").isSome then some "goto"
      else if (assocLookup d "exec").isSome then some "exec" else none
    (match cback with
     | none => eopt
     | some cb =>
       let signature := (assocLookup d cb).getD .pynone
       match signature with
       | .pyfun f =>
         .pydict (setAssoc d cb (.pytuple [.pyfun f,
           .pydict [("available_choices", pageV)]]))
       | .pytuple (a :: b :: rest) =>
         (match b with
          | .pydict bd =>
            .pydict (setAssoc d cb (.pytuple
              (a :: .pydict (setAssoc bd "available_choices" pageV) :: rest)))
          | _ =>
            .pydict (setAssoc d cb (.pytuple [a,
              .pydict [("available_choices", pageV)]])))
       | .pytuple [a] =>
         .pydict (setAssoc d cb (.pytuple [a,
           .pydict [("available_choices", pageV)]]))
       | _ => eopt)
  | v => v

/-- The full option list `_list_node` returns: the per-item select options,
then the paging controls, then the rewritten options contributed by the
decorated node function. -/
def listNodeOptions (optionList : List String) (pagesize : Nat)
    (requested : Int) (decorated : List PyVal) : List PyVal :=
  let c := listNodeCore optionList pagesize requested
  selectOptions c.page ++ pagingControls c.npages c.pageIndex
    ++ decorated.map (rewriteOption c.page)

/-- Does an option record carry the given input alias in its key field. -/
def keyHasAlias (alias2 : String) : PyVal → Bool
  | .pydict d =>
    (match assocLookup d "key" with
     | some (.pytuple ks) => ks.any (fun k =>
         match k with
         | .pystr s => s == alias2
         | _ => false)
     | some (.pystr s) => s == alias2
     | _ => false)
  | _ => false

/-- Does any option in a list carry the given input alias. -/
def hasAliasKey (alias2 : String) (opts : List PyVal) : Bool :=
  opts.any (keyHasAlias alias2)

/-- Strip the surrounding newlines as `raw_string.strip("\n")` does in
`_generated_input_goto_func`. -/
def inputStripNL (raw : String) : String :=
  String.mk
    (((raw.data.dropWhile (· == Char.ofNat 10)).reverse.dropWhile
      (· == Char.ofNat 10)).reverse)

/-- `_generated_input_goto_func`, the synthetic default-option goto
callable compiled for `>`-pattern template lines.  The glob matcher
(`fnmatch`), the regex matcher (`re.match` with IGNORECASE+MULTILINE) and
the `_process_callable` continuation are external collaborators passed as
parameters (argument order as in the source: `fnmatch(input, pattern)` and
`re.match(pattern, input)`).  Every pattern of the registered map is tried
as a glob against the lowered raw input in declaration order; only when no
glob matched, every non-empty pattern is tried again as a regex in
declaration order; when nothing matches the abort signal is raised with the
no-match message. -/
def generatedInputGoto (gm : String → String → Bool)
    (rm : String → String → Bool) (proc : String → Res PyVal)
    (gotomap : List (String × String)) (raw : String) : Res PyVal :=
  let raw2 := inputStripNL raw
  match gotomap.find? (fun pg => gm (strLower raw2) pg.1) with
  | some (_, g) => proc g
  | none =>
    match gotomap.find?
        (fun pg => !strIsEmpty pg.1 && rm pg.1 (strLower raw2)) with
    | some (_, g) => proc g
    | none => ([], .error (.abortMsg helpNoOptionMatchMsg))

/-- Observe whether a result is a value (no propagating exception). -/
def exceptOk : Except Exc α → Bool
  | .ok _ => true
  | .error _ => false

/-- Observe the quitting flag of a dispatch result (false when the dispatch
raised). -/
def resQuitting (r : Res MenuState) : Bool :=
  match r.2 with
  | .ok s => s.quitting
  | .error _ => false

/-- An option record marked as the node default with a plain goto target. -/
def mkDefaultOpt (g : String) : PyVal :=
  .pydict [("key", .pystr "_default"), ("goto", .pystr g)]

/-! ### Concrete fixtures used by witnesses and counterexamples -/

/-- Concrete external collaborators: markup stripping and node formatting
that keep the text unchanged. -/
def ext0 : Ext :=
  { stripAnsi := fun s => s
    formatNode := fun t _ => t
    helptextFormatter := pyStrOf }

/-- A node with one plain option, used as the declared goto target. -/
def nodeDeclared : PyFun :=
  ⟨"declared_node", ⟨1, false⟩, fun _ => .ok (.pytuple
    [.pystr "Declared.",
     .pytuple [.pydict [("key", .pystr "x"), ("goto", .pystr "declared_node")]]])⟩

/-- A node with one plain option, used as the exec-returned target. -/
def nodeOther : PyFun :=
  ⟨"other_node", ⟨1, false⟩, fun _ => .ok (.pytuple
    [.pystr "Other.",
     .pytuple [.pydict [("key", .pystr "y"), ("goto", .pystr "other_node")]]])⟩

/-- A terminal node: options are `None`. -/
def nodeEnd : PyFun :=
  ⟨"end_node", ⟨1, false⟩, fun _ => .ok (.pytuple [.pystr "Bye.", .pynone])⟩

/-- A node returning an empty option list (not `None`). -/
def nodeEmptyOpts : PyFun :=
  ⟨"empty_node", ⟨1, false⟩, fun _ => .ok (.pytuple [.pystr "Bye.", .pytuple []])⟩

/-- An exec callable returning a non-empty replacement node name. -/
def fnExOther : PyFun :=
  ⟨"ex_other", ⟨2, true⟩, fun _ => .ok (.pystr "other_node")⟩

/-- An exec callable returning the empty string. -/
def fnExEmpty : PyFun :=
  ⟨"ex_empty", ⟨2, true⟩, fun _ => .ok (.pystr "")⟩

/-- An exec callable returning `None`. -/
def fnExNone : PyFun :=
  ⟨"ex_none", ⟨2, true⟩, fun _ => .ok .pynone⟩

/-- An exec callable raising `EvMenuError`. -/
def fnExBoom : PyFun :=
  ⟨"ex_boom", ⟨2, true⟩, fun _ => .error (.evmenu "boom")⟩

/-- A goto callable raising a generic application exception. -/
def fnGotoBoom : PyFun :=
  ⟨"goto_boom", ⟨2, true⟩, fun _ => .error (.userError "ZeroDivisionError")⟩

/-- A goto callable raising the abort-message signal. -/
def fnAbort : PyFun :=
  ⟨"abort_fun", ⟨2, true⟩, fun _ => .error (.abortMsg "That makes no sense.")⟩

/-- A node whose body raises a generic application exception. -/
def nodeBoom : PyFun :=
  ⟨"boom_node", ⟨1, false⟩, fun _ => .error (.userError "ValueError")⟩

/-- The concrete menu tree of the fixtures. -/
def menutree0 : List (String × PyFun) :=
  [("declared_node", nodeDeclared), ("other_node", nodeOther),
   ("end_node", nodeEnd), ("empty_node", nodeEmptyOpts),
   ("boom_node", nodeBoom)]

/-- The concrete callable table of the fixtures. -/
def funs0 : List (String × PyFun) :=
  [("ex_other", fnExOther), ("ex_empty", fnExEmpty), ("ex_none", fnExNone),
   ("ex_boom", fnExBoom), ("goto_boom", fnGotoBoom), ("abort_fun", fnAbort)]

/-- The concrete environment of the fixtures. -/
def env0 : Env := ⟨menutree0, funs0, ext0⟩

/-- A plain active session state sitting on node `start`. -/
def baseState : MenuState :=
  { nodename := .pystr "start"
    nodetext := ""
    helptext := ""
    options := []
    default := none
    nodeKwargs := []
    autoQuit := true
    autoLook := true
    autoHelp := true
    debugMode := false
    cmdOnExit := some "look"
    quitting := false
    attached := true
    hookRuns := [] }

/-- The table entry of the concrete option `go`. -/
def entryGo : OptEntry :=
  ⟨.pystr "other_node", .pydict [], .pynone, .pydict []⟩

/-- The table entry of a concrete option whose goto callable aborts. -/
def entryAbort : OptEntry :=
  ⟨.pyfun "abort_fun", .pydict [], .pynone, .pydict []⟩

/-- An active session whose table has the single option `go`. -/
def stateWithGo : MenuState := { baseState with options := [("go", entryGo)] }

/-- An active session whose single option dispatches to the aborting
callable. -/
def stateWithAbort : MenuState :=
  { baseState with options := [("go", entryAbort)] }

/-- The previous engine attached to the actor in the replacement fixture. -/
def oldMenu : MenuState := baseState

/-- The replacing engine of the replacement fixture. -/
def newMenu : MenuState :=
  { baseState with nodename := .pystr "new_start", cmdOnExit := none }

/-- An actor with the previous engine attached. -/
def actor1 : Actor := ⟨some oldMenu⟩

/-- The C4 witness run: `goto` finishing on a terminal (options `None`)
node result. -/
def c4run : Res MenuState :=
  gotoFinish env0 baseState (.pystr "end_node") [] (.pystr "Bye.") .pynone

/-- The session state after the C4 witness run. -/
def c4stAfter : MenuState :=
  match c4run.2 with
  | .ok s => s
  | .error _ => baseState

/-- The C4 counterexample run: a full `goto` onto the node that returns an
empty option list (truthiness-falsy but not `None`). -/
def c4cexRun : Res MenuState :=
  gotoStep env0 baseState (.pystr "empty_node") "" []

/-- The C6 counterexample run: a full exec-then-goto dispatch whose exec
callable raises `EvMenuError`. -/
def c6run : Res MenuState :=
  runExecThenGoto env0 baseState (.pyfun "ex_boom") (.pystr "declared_node")
    "x" (.pydict []) (.pydict [])

/-- The C1 counterexample run: a dispatch whose exec callable returns the
empty string while the current node is the five-character name `start`. -/
def c1cexRun : Res MenuState :=
  runExecThenGoto env0 baseState (.pyfun "ex_empty") (.pystr "declared_node")
    "inp" (.pydict []) (.pydict [])

/-- A glob matcher that never matches (for the C7 counterexample). -/
def gmNone : String → String → Bool := fun _ _ => false

/-- A regex matcher under which every pattern matches, as Python
`re.match` does for the empty pattern (for the C7 counterexample). -/
def rmAll : String → String → Bool := fun _ _ => true

/-- A trivial `_process_callable` continuation returning the routed goto. -/
def procId : String → Res PyVal := fun g => ([], .ok (.pystr g))

/-- A 25-item backing list for the pagination witness. -/
def list25 : List String := List.replicate 25 "item"

/-- Observe the current node of a dispatch result. -/
def resNodename (r : Res MenuState) : PyVal :=
  match r.2 with
  | .ok s => s.nodename
  | .error _ => .pynone

/-- A concrete glob matcher recognising exactly the pattern `foo*` on
inputs starting with `foo` (for the C7 witness). -/
def gmW : String → String → Bool :=
  fun s p => p == "foo*" && strStartsWith s "foo"

/-- A concrete regex matcher recognising exactly the digit pattern (for
the C7 witness). -/
def rmW : String → String → Bool :=
  fun p s => p == "[0-9]+" && s == "42"

/-- The registered pattern map of the C7 witness, in declaration order. -/
def gotomapW : List (String × String) :=
  [("foo*", "node_a"), ("[0-9]+", "node_b")]

/-! ### General lemmas about the embedding -/

theorem extractDirective_pystr (nm what s) :
    extractDirective nm what (.pystr s) = .ok (.pystr s, .pydict []) := by
  unfold extractDirective
  split
  · rfl
  · rfl

theorem extractDirective_pynone (nm what) :
    extractDirective nm what .pynone = .ok (.pynone, .pydict []) := rfl

theorem starstar_pydict (d : Kwargs) : starstar (.pydict d) = .ok d := by
  cases d with
  | nil => rfl
  | cons x xs => rfl

theorem closeMenu_quitting (s : MenuState) : (closeMenu s).quitting = true := by
  unfold closeMenu
  split
  next h => exact h
  next => rfl

theorem gotoFinish_quitting (env : Env) (st : MenuState) (nmV : PyVal)
    (kwargs : Kwargs) (ntV optV : PyVal) (ms : List String) (st2 : MenuState)
    (h : gotoFinish env st nmV kwargs ntV optV = (ms, .ok st2)) :
    st2.quitting
      = (if pyTruthy (normalizeOptions optV) = true then st.quitting
         else true) := by
  unfold gotoFinish at h
  cases hsp : splitNodetext ntV with
  | error e =>
    rw [hsp] at h
    simp at h
  | ok p =>
    obtain ⟨a, b⟩ := p
    simp only [hsp] at h
    cases hb : buildOptions env.ext (pyStrOf nmV) (normalizeOptions optV) with
    | error e =>
      simp only [hb] at h
      simp at h
    | ok acc =>
      simp only [hb] at h
      by_cases hc : pyTruthy (normalizeOptions optV) = true
      · rw [if_pos hc]
        simp only [hc, if_true] at h
        injection h with h1 h2
        injection h2 with h2
        rw [← h2]
      · rw [if_neg hc]
        simp only [hc, if_false] at h
        injection h with h1 h2
        injection h2 with h2
        rw [← h2]
        exact closeMenu_quitting _

theorem parseInput_option_hit (env : Env) (st : MenuState) (raw : String)
    (e : OptEntry)
    (h1 : assocLookup st.options (normInput env raw) = some e) :
    parseInput env st raw
      = catchAbort st
          (runExecThenGoto env st e.execute e.goto raw e.execKwargs
            e.gotoKwargs) := by
  have hne : st.options.isEmpty = false := by
    cases hopt : st.options with
    | nil => rw [hopt] at h1; simp [assocLookup] at h1
    | cons x xs => rfl
  unfold parseInput
  simp [h1, hne]

theorem parseInput_look (env : Env) (st : MenuState) (raw : String)
    (h1 : assocLookup st.options (normInput env raw) = none)
    (hl : lookHit st (normInput env raw) = true) :
    parseInput env st raw = ([st.nodetext], .ok st) := by
  unfold parseInput
  simp [h1, hl, catchAbort]

theorem parseInput_help (env : Env) (st : MenuState) (raw : String)
    (h1 : assocLookup st.options (normInput env raw) = none)
    (hl : lookHit st (normInput env raw) = false)
    (hh : helpHit st (normInput env raw) = true) :
    parseInput env st raw = ([st.helptext], .ok st) := by
  unfold parseInput
  simp [h1, hl, hh, catchAbort]

theorem parseInput_quit (env : Env) (st : MenuState) (raw : String)
    (h1 : assocLookup st.options (normInput env raw) = none)
    (hl : lookHit st (normInput env raw) = false)
    (hh : helpHit st (normInput env raw) = false)
    (hq : quitHit st (normInput env raw) = true) :
    parseInput env st raw = ([], .ok (closeMenu st)) := by
  unfold parseInput
  simp [h1, hl, hh, hq, catchAbort]

theorem parseInput_debug (env : Env) (st : MenuState) (raw : String)
    (h1 : assocLookup st.options (normInput env raw) = none)
    (hl : lookHit st (normInput env raw) = false)
    (hh : helpHit st (normInput env raw) = false)
    (hq : quitHit st (normInput env raw) = false)
    (hd : debugHit st (normInput env raw) = true) :
    parseInput env st raw = ([menudebugMsg], .ok st) := by
  unfold parseInput
  simp [h1, hl, hh, hq, hd, catchAbort]

theorem parseInput_default_hit (env : Env) (st : MenuState) (raw : String)
    (e : OptEntry)
    (h1 : assocLookup st.options (normInput env raw) = none)
    (hl : lookHit st (normInput env raw) = false)
    (hh : helpHit st (normInput env raw) = false)
    (hq : quitHit st (normInput env raw) = false)
    (hd : debugHit st (normInput env raw) = false)
    (hdef : st.default = some e) :
    parseInput env st raw
      = catchAbort st
          (runExecThenGoto env st e.execute e.goto raw e.execKwargs
            e.gotoKwargs) := by
  unfold parseInput
  simp [h1, hl, hh, hq, hd, hdef]

theorem parseInput_fallthrough (env : Env) (st : MenuState) (raw : String)
    (h1 : assocLookup st.options (normInput env raw) = none)
    (hl : lookHit st (normInput env raw) = false)
    (hh : helpHit st (normInput env raw) = false)
    (hq : quitHit st (normInput env raw) = false)
    (hd : debugHit st (normInput env raw) = false)
    (hdef : st.default = none) :
    parseInput env st raw = ([helpNoOptionMatchMsg], .ok st) := by
  unfold parseInput
  simp [h1, hl, hh, hq, hd, hdef, catchAbort]

/-! ### Claim theorems -/

/-- Claim C3: the invocation adapter `_safe_call` supplies, for each of the
four declared signature shapes `f(actor)`, `f(actor, raw)`, `f(actor, **kw)`
and `f(actor, raw, **kw)`, exactly the arguments the shape declares — the
actor always, the raw input string only when a second positional parameter
is declared, the keyword set only when `**kwargs` is declared — and a
callable declaring no positional parameters at all fails with
`EvMenuError`. -/
theorem c3_invocation_adapter (impl : CallArgs → Except Exc PyVal)
    (nm raw : String) (kw : Kwargs) :
    safeCallF ⟨nm, ⟨1, false⟩, impl⟩ raw kw
        = safeWrap nm (impl ⟨true, none, none⟩)
    ∧ safeCallF ⟨nm, ⟨2, false⟩, impl⟩ raw kw
        = safeWrap nm (impl ⟨true, some raw, none⟩)
    ∧ safeCallF ⟨nm, ⟨1, true⟩, impl⟩ raw kw
        = safeWrap nm (impl ⟨true, none, some kw⟩)
    ∧ safeCallF ⟨nm, ⟨2, true⟩, impl⟩ raw kw
        = safeWrap nm (impl ⟨true, some raw, some kw⟩)
    ∧ ∀ b, safeCallF ⟨nm, ⟨0, b⟩, impl⟩ raw kw
        = ([errGeneralMsg nm], .error (.evmenu (noArgsMsg nm))) := by
  refine ⟨?_, ?_, ?_, ?_, fun b => ?_⟩ <;> simp [safeCallF, mkCallArgs]

/-- Claim C9 (amended): constructing an engine for an actor that already
has one replaces the attachment — afterwards exactly the new engine is
attached — and the forced close of the previous engine does run its
terminal hook `cmd_on_exit` (the source comment only promises that the
previous menu end node does not fire). -/
theorem c9_single_menu_attach (old m : MenuState) (h : String)
    (hq : old.quitting = false) (hh : old.cmdOnExit = some h) :
    (attachMenu ⟨some old⟩ m).1.evmenu = some { m with attached := true }
      ∧ (attachMenu ⟨some old⟩ m).2 = old.hookRuns ++ [h] := by
  simp [attachMenu, closeMenu, hq, hh]

/-- Witness for C9: replacing the fixture engine attaches exactly the new
engine and runs the hook `look` of the old one. -/
theorem c9_witness :
    (attachMenu ⟨some oldMenu⟩ newMenu).1.evmenu
        = some { newMenu with attached := true }
      ∧ (attachMenu ⟨some oldMenu⟩ newMenu).2 = oldMenu.hookRuns ++ ["look"] :=
  c9_single_menu_attach oldMenu newMenu "look" rfl rfl

/-- Counterexample for C9 as stated: the forced close of the previous
engine does run its terminal hook — the hook log of the close performed by
the replacement slice is `["look"]`, not empty. -/
theorem c9_counterexample :
    (attachMenu actor1 newMenu).2 = ["look"]
      ∧ (attachMenu actor1 newMenu).2 ≠ ([] : List String) := by
  constructor
  · rfl
  · intro h
    exact List.cons_ne_nil _ _ (by rw [← h]; rfl)

/-- Claim C5 (amended): a node option list containing two records marked
`_default` builds without any error; the directives of the last such record
silently become the node default. -/
theorem c5_last_default_wins (ext : Ext) (nmShown g1 g2 : String) :
    buildOptions ext nmShown (.pytuple [mkDefaultOpt g1, mkDefaultOpt g2])
      = .ok ⟨[], [], some ⟨.pystr g2, .pydict [], .pynone, .pydict []⟩⟩ := by
  simp [buildOptions, foldOptions, stepOption, mkDefaultOpt, extractGotoExec,
    extractDirective_pystr, extractDirective_pynone, assocLookup, makeIter,
    isIter, membersOf, isDefaultKey, pyTruthy]

/-- Counterexample for C5 as stated: building a node with two `_default`
option records does not fail with any configuration error — it succeeds,
keeping only the second default. -/
theorem c5_counterexample :
    buildOptions ext0 "start" (.pytuple [mkDefaultOpt "n1", mkDefaultOpt "n2"])
      = .ok ⟨[], [], some ⟨.pystr "n2", .pydict [], .pynone, .pydict []⟩⟩ := by
  rfl

/-- Claim C4 (amended): when `goto` finishes a successfully executed node
while the session is active, the session closes (the quitting flag is set
by `close_menu` right after the node is displayed) exactly when the node's
returned options are falsy after normalisation — that is, `None` or any
empty collection, not only `None`. -/
theorem c4_terminal_close (env : Env) (st : MenuState) (nmV : PyVal)
    (kwargs : Kwargs) (ntV optV : PyVal) (ms : List String) (st2 : MenuState)
    (hq : st.quitting = false)
    (h : gotoFinish env st nmV kwargs ntV optV = (ms, .ok st2)) :
    (st2.quitting = true) ↔ (pyTruthy (normalizeOptions optV) = false) := by
  have hg := gotoFinish_quitting env st nmV kwargs ntV optV ms st2 h
  by_cases hc : pyTruthy (normalizeOptions optV) = true
  · rw [if_pos hc] at hg
    rw [hg, hq, hc]
    simp
  · rw [if_neg hc] at hg
    rw [hg]
    simp only [Bool.not_eq_true] at hc
    simp [hc]

/-- Witness for C4: finishing the fixture node whose options are `None`
does close the session. -/
theorem c4_witness :
    (c4stAfter.quitting = true)
      ↔ (pyTruthy (normalizeOptions .pynone) = false) :=
  c4_terminal_close env0 baseState (.pystr "end_node") [] (.pystr "Bye.")
    .pynone c4run.1 c4stAfter rfl rfl

/-- Counterexample for C4 as stated: a full `goto` onto a node returning an
*empty list* of options also closes the session, although the empty list is
not `None` after normalisation — so closure is not equivalent to the
options being `None`. -/
theorem c4_counterexample :
    resQuitting c4cexRun = true
      ∧ normalizeOptions (.pytuple []) ≠ .pynone := by
  constructor
  · rfl
  · intro hcontra
    exact PyVal.noConfusion hcontra

/-- Claim C10: an option record with neither a goto nor an exec directive
is still appended to the displayed option list, but contributes no entry to
the input lookup table; and input that matches no table entry, no builtin
and no default is answered with the unrecognized-input message, leaving the
session state unchanged. -/
theorem c10_no_directive_option (ext : Ext) (nmShown : String) (inum : Nat)
    (acc : OptAcc) (k : String) (descv : PyVal)
    (hk : (k == "_default") = false) :
    stepOption ext nmShown inum acc
        (.pydict [("key", .pystr k), ("desc", descv)])
        = .ok ⟨acc.disp ++ [(.pystr k, descv)], acc.tbl, acc.dflt⟩
  ∧ ∀ (env : Env) (st : MenuState) (raw : String),
      assocLookup st.options (normInput env raw) = none →
      lookHit st (normInput env raw) = false →
      helpHit st (normInput env raw) = false →
      quitHit st (normInput env raw) = false →
      debugHit st (normInput env raw) = false →
      st.default = none →
      parseInput env st raw = ([helpNoOptionMatchMsg], .ok st) := by
  constructor
  · simp [stepOption, assocLookup, makeIter, isIter, membersOf, isDefaultKey,
      hk, extractGotoExec, extractDirective_pynone, insertKeys, pyTruthy]
  · intro env st raw h1 hl hh hq2 hd hdef
    exact parseInput_fallthrough env st raw h1 hl hh hq2 hd hdef

/-- Witness for C10: the concrete directive-less option `forward` is shown
but produces an empty lookup table, and entering `forward` on a node with
an empty table and no default yields the no-match message with the state
unchanged. -/
theorem c10_witness :
    stepOption ext0 "start" 0 ⟨[], [], none⟩
        (.pydict [("key", .pystr "forward"), ("desc", .pystr "Go forward")])
        = .ok ⟨[(.pystr "forward", .pystr "Go forward")], [], none⟩
      ∧ parseInput env0 baseState "forward"
        = ([helpNoOptionMatchMsg], .ok baseState) := by
  constructor
  · have h := (c10_no_directive_option ext0 "start" 0 ⟨[], [], none⟩
      "forward" (.pystr "Go forward") rfl).1
    simpa using h
  · exact (c10_no_directive_option ext0 "start" 0 ⟨[], [], none⟩
      "forward" (.pystr "Go forward") rfl).2 env0 baseState "forward"
      rfl rfl rfl rfl rfl rfl

/-- Claim C2: `parse_input` normalises the raw input (strip whitespace,
lowercase, strip markup decoration) and dispatches in strict priority
order: an exact option-table match shadows everything; otherwise the
enabled builtins look/help/quit and the debug command; otherwise the
declared default option; otherwise the unrecognized-input message with the
session state unchanged. -/
theorem c2_parse_input_priority (env : Env) (st : MenuState) (raw : String) :
    (∀ e, assocLookup st.options (normInput env raw) = some e →
      parseInput env st raw
        = catchAbort st (runExecThenGoto env st e.execute e.goto raw
            e.execKwargs e.gotoKwargs))
  ∧ (assocLookup st.options (normInput env raw) = none →
      (lookHit st (normInput env raw) = true →
        parseInput env st raw = ([st.nodetext], .ok st))
      ∧ (lookHit st (normInput env raw) = false →
          helpHit st (normInput env raw) = true →
          parseInput env st raw = ([st.helptext], .ok st))
      ∧ (lookHit st (normInput env raw) = false →
          helpHit st (normInput env raw) = false →
          quitHit st (normInput env raw) = true →
          parseInput env st raw = ([], .ok (closeMenu st)))
      ∧ (lookHit st (normInput env raw) = false →
          helpHit st (normInput env raw) = false →
          quitHit st (normInput env raw) = false →
          debugHit st (normInput env raw) = true →
          parseInput env st raw = ([menudebugMsg], .ok st))
      ∧ (lookHit st (normInput env raw) = false →
          helpHit st (normInput env raw) = false →
          quitHit st (normInput env raw) = false →
          debugHit st (normInput env raw) = false →
          (∀ e, st.default = some e →
            parseInput env st raw
              = catchAbort st (runExecThenGoto env st e.execute e.goto raw
                  e.execKwargs e.gotoKwargs))
          ∧ (st.default = none →
            parseInput env st raw = ([helpNoOptionMatchMsg], .ok st)))) := by
  refine ⟨fun e he => parseInput_option_hit env st raw e he, fun h1 => ?_⟩
  refine ⟨fun hl => parseInput_look env st raw h1 hl,
    fun hl hh => parseInput_help env st raw h1 hl hh,
    fun hl hh hq2 => parseInput_quit env st raw h1 hl hh hq2,
    fun hl hh hq2 hd => parseInput_debug env st raw h1 hl hh hq2 hd,
    fun hl hh hq2 hd => ⟨fun e hdef =>
      parseInput_default_hit env st raw e h1 hl hh hq2 hd hdef,
      fun hdef => parseInput_fallthrough env st raw h1 hl hh hq2 hd hdef⟩⟩

/-- Witness for C2: on the fixture state, the option `go` dispatches
through the table, `quit` closes the session, and unmatched input yields
the no-match message with the state unchanged. -/
theorem c2_witness :
    parseInput env0 stateWithGo "go"
      = catchAbort stateWithGo
          (runExecThenGoto env0 stateWithGo entryGo.execute entryGo.goto
            "go" entryGo.execKwargs entryGo.gotoKwargs)
  ∧ parseInput env0 stateWithGo "quit" = ([], .ok (closeMenu stateWithGo))
  ∧ parseInput env0 baseState "zzz"
      = ([helpNoOptionMatchMsg], .ok baseState) := by
  refine ⟨(c2_parse_input_priority env0 stateWithGo "go").1 entryGo rfl,
    ?_, ?_⟩
  · exact (((c2_parse_input_priority env0 stateWithGo "quit").2 rfl).2.2.1)
      rfl rfl rfl
  · exact ((((c2_parse_input_priority env0 baseState "zzz").2 rfl).2.2.2.2)
      rfl rfl rfl rfl).2 rfl

/-- Claim C1 (amended): `run_exec_then_goto` runs the exec directive first;
when the exec callable returns a non-empty string, or a `(string, kwargs)`
pair with a non-empty string, that result replaces the pending goto
directive and its kwargs entirely (the declared goto never fires — the
dispatch equals a plain `goto` on the exec-returned name).  When the exec
callable returns `None`, the original goto directive and its original
kwargs are used unchanged.  (The empty-string result does *not* keep the
original goto: see the counterexample.) -/
theorem c1_exec_then_goto (env : Env) (st : MenuState) (fname : String)
    (f : PyFun) (gotoV : PyVal) (gkw ekw : Kwargs) (raw : String)
    (hf : assocLookup env.funs fname = some f)
    (hn : ¬ f.sig.nargs = 0) :
    (∀ s, strIsEmpty s = false →
      f.impl (mkCallArgs f.sig raw ekw) = .ok (.pystr s) →
      runExecThenGoto env st (.pyfun fname) gotoV raw (.pydict ekw)
          (.pydict gkw)
        = gotoStep env st (.pystr s) raw ekw)
  ∧ (∀ s kw2, strIsEmpty s = false →
      f.impl (mkCallArgs f.sig raw ekw)
          = .ok (.pytuple [.pystr s, .pydict kw2]) →
      runExecThenGoto env st (.pyfun fname) gotoV raw (.pydict ekw)
          (.pydict gkw)
        = gotoStep env st (.pystr s) raw kw2)
  ∧ (f.impl (mkCallArgs f.sig raw ekw) = .ok .pynone →
      pyTruthy gotoV = true →
      runExecThenGoto env st (.pyfun fname) gotoV raw (.pydict ekw)
          (.pydict gkw)
        = gotoStep env st gotoV raw gkw) := by
  refine ⟨fun s hs himpl => ?_, fun s kw2 hs himpl => ?_, fun himpl hg => ?_⟩
  · simp [runExecThenGoto, runExecStep, callFun, hf, safeCallF, hn, himpl,
      safeWrap, starstar_pydict, unpack2, pyTruthy, hs]
  · simp [runExecThenGoto, runExecStep, callFun, hf, safeCallF, hn, himpl,
      safeWrap, starstar_pydict, unpack2, pyTruthy, hs]
  · have hg2 := hg
    simp only [pyTruthy] at hg2
    simp [runExecThenGoto, runExecStep, callFun, hf, safeCallF, hn, himpl,
      safeWrap, starstar_pydict, unpack2, pyTruthy, hg2]

/-- Witness for C1: the exec callable returning `other_node` makes the
dispatch equal a plain goto on `other_node` (the declared `declared_node`
never fires), and the exec callable returning `None` leaves the declared
goto in force. -/
theorem c1_witness :
    runExecThenGoto env0 baseState (.pyfun "ex_other")
        (.pystr "declared_node") "inp" (.pydict []) (.pydict [])
      = gotoStep env0 baseState (.pystr "other_node") "inp" []
  ∧ runExecThenGoto env0 baseState (.pyfun "ex_none")
        (.pystr "declared_node") "inp" (.pydict []) (.pydict [])
      = gotoStep env0 baseState (.pystr "declared_node") "inp" [] := by
  constructor
  · exact (c1_exec_then_goto env0 baseState "ex_other" fnExOther
      (.pystr "declared_node") [] [] "inp" rfl (by decide)).1 "other_node"
      rfl rfl
  · exact (c1_exec_then_goto env0 baseState "ex_none" fnExNone
      (.pystr "declared_node") [] [] "inp" rfl (by decide)).2.2 rfl rfl

/-- Counterexample for C1 as stated: when the exec callable returns the
*empty string* the original goto is not used unchanged — `run_exec`
returns the current node name (`start`), which `run_exec_then_goto`
erroneously tuple-unpacks, raising a ValueError, so the dispatch does not
equal the goto on the declared node. -/
theorem c1_counterexample :
    c1cexRun ≠ gotoStep env0 baseState (.pystr "declared_node") "inp" [] := by
  intro h
  have h2 : exceptOk c1cexRun.2
      = exceptOk
          (gotoStep env0 baseState (.pystr "declared_node") "inp" []).2 :=
    congrArg (fun r => exceptOk r.2) h
  rw [show exceptOk c1cexRun.2 = false from rfl,
    show exceptOk
      (gotoStep env0 baseState (.pystr "declared_node") "inp" []).2
        = true from rfl] at h2
  exact Bool.noConfusion h2

/-- Claim C6 (amended): an exception raised inside an *executed node* is
caught, reported with the generic node message and re-raised.  But an
`EvMenuError` raised by an *exec callback* is reported and then swallowed —
`run_exec` returns `None` and dispatch continues — and a generic exception
raised by a *goto callable* propagates with no message sent at all. -/
theorem c6_error_isolation (env : Env) (st : MenuState) :
    (∀ (nm : String) (f : PyFun) (raw : String) (kw : Kwargs) (m : String),
      assocLookup env.menutree nm = some f → ¬ f.sig.nargs = 0 →
      f.impl (mkCallArgs f.sig raw
          (setAssoc kw "_current_nodename" (.pystr nm)))
        = .error (.userError m) →
      executeNode env (.pystr nm) raw kw
        = ([errGeneralMsg nm], .error (.userError m)))
  ∧ (∀ (fname : String) (f : PyFun) (raw : String) (kw : Kwargs) (m : String),
      assocLookup env.funs fname = some f → ¬ f.sig.nargs = 0 →
      f.impl (mkCallArgs f.sig raw kw) = .error (.evmenu m) →
      runExecStep env st (.pyfun fname) raw kw
        = ([errGeneralMsg f.name, execErrMsg (.pyfun fname) raw m],
           .ok .pynone))
  ∧ (∀ (fname : String) (f : PyFun) (raw : String) (kw : Kwargs) (m : String),
      assocLookup env.funs fname = some f → ¬ f.sig.nargs = 0 →
      f.impl (mkCallArgs f.sig raw kw) = .error (.userError m) →
      gotoStep env st (.pyfun fname) raw kw
        = ([], .error (.userError m))) := by
  refine ⟨fun nm f raw kw m hf hn himpl => ?_,
    fun fname f raw kw m hf hn himpl => ?_,
    fun fname f raw kw m hf hn himpl => ?_⟩
  · simp [executeNode, hf, safeCallF, hn, himpl, safeWrap, pyStrOf]
  · simp [runExecStep, callFun, hf, safeCallF, hn, himpl, safeWrap]
  · simp [gotoStep, callFun, hf, safeCallF, hn, himpl, safeWrap]

/-- Witness for C6: on the fixtures, the failing node is messaged and its
exception re-raised; the exec callback raising `EvMenuError` is messaged
and swallowed; the failing goto callable propagates without a message. -/
theorem c6_witness :
    executeNode env0 (.pystr "boom_node") "x" []
        = ([errGeneralMsg "boom_node"], .error (.userError "ValueError"))
  ∧ runExecStep env0 baseState (.pyfun "ex_boom") "x" []
        = ([errGeneralMsg "ex_boom", execErrMsg (.pyfun "ex_boom") "x" "boom"],
           .ok .pynone)
  ∧ gotoStep env0 baseState (.pyfun "goto_boom") "x" []
        = ([], .error (.userError "ZeroDivisionError")) := by
  refine ⟨?_, ?_, ?_⟩
  · exact (c6_error_isolation env0 baseState).1 "boom_node" nodeBoom "x" []
      "ValueError" rfl (by decide) rfl
  · exact (c6_error_isolation env0 baseState).2.1 "ex_boom" fnExBoom "x" []
      "boom" rfl (by decide) rfl
  · exact (c6_error_isolation env0 baseState).2.2 "goto_boom" fnGotoBoom "x"
      [] "ZeroDivisionError" rfl (by decide) rfl

/-- Counterexample for C6 as stated: a full exec-then-goto dispatch whose
exec callback raises `EvMenuError` completes successfully — the error is
not re-raised to the caller, and the dispatch continues on to the declared
goto node. -/
theorem c6_counterexample :
    exceptOk c6run.2 = true
      ∧ resNodename c6run = .pystr "declared_node" := by
  exact ⟨rfl, rfl⟩

/-- Claim C7 (amended): the synthetic `>`-pattern goto callable tries every
registered pattern as a glob against the lowered raw input in declaration
order; only when no glob matched, it tries every *non-empty* pattern again
as a regex in declaration order (empty patterns are skipped in the regex
phase); and when nothing matches it raises the abort signal, which
`parse_input` turns into the no-match message, the session staying on the
current node unchanged. -/
theorem c7_pattern_fallback (gm rm : String → String → Bool)
    (proc : String → Res PyVal) (gotomap : List (String × String))
    (raw : String) :
    (∀ p g,
      gotomap.find? (fun pg => gm (strLower (inputStripNL raw)) pg.1)
          = some (p, g) →
      generatedInputGoto gm rm proc gotomap raw = proc g)
  ∧ (gotomap.find? (fun pg => gm (strLower (inputStripNL raw)) pg.1)
        = none →
      ∀ p g,
        gotomap.find?
            (fun pg =>
              !strIsEmpty pg.1 && rm pg.1 (strLower (inputStripNL raw)))
            = some (p, g) →
        generatedInputGoto gm rm proc gotomap raw = proc g)
  ∧ (gotomap.find? (fun pg => gm (strLower (inputStripNL raw)) pg.1)
        = none →
      gotomap.find?
          (fun pg =>
            !strIsEmpty pg.1 && rm pg.1 (strLower (inputStripNL raw)))
          = none →
      generatedInputGoto gm rm proc gotomap raw
        = ([], .error (.abortMsg helpNoOptionMatchMsg)))
  ∧ (∀ (env : Env) (st : MenuState) (raw2 : String) (fname : String)
        (f : PyFun) (gkwd : Kwargs) (ekwV : PyVal) (m : String),
      assocLookup st.options (normInput env raw2)
          = some ⟨.pyfun fname, .pydict gkwd, .pynone, ekwV⟩ →
      assocLookup env.funs fname = some f → ¬ f.sig.nargs = 0 →
      f.impl (mkCallArgs f.sig raw2 gkwd) = .error (.abortMsg m) →
      parseInput env st raw2 = ([m], .ok st)) := by
  refine ⟨fun p g hg => ?_, fun hg p g hr => ?_, fun hg hr => ?_,
    fun env st raw2 fname f gkwd ekwV m hlk hf hn himpl => ?_⟩
  · simp [generatedInputGoto, hg]
  · simp [generatedInputGoto, hg, hr]
  · simp [generatedInputGoto, hg, hr]
  · rw [parseInput_option_hit env st raw2 _ hlk]
    simp [runExecThenGoto, gotoStep, callFun, hf, safeCallF, hn, himpl,
      safeWrap, starstar_pydict, pyTruthy, catchAbort]

/-- Witness for C7: on the concrete pattern map, a glob match routes to the
first matching pattern, a failed glob phase falls back to the regex phase,
a total miss aborts, and the abort of the fixture goto callable leaves the
session unchanged with the abort text shown. -/
theorem c7_witness :
    generatedInputGoto gmW rmW procId gotomapW "foobar" = procId "node_a"
  ∧ generatedInputGoto gmW rmW procId gotomapW "42" = procId "node_b"
  ∧ generatedInputGoto gmW rmW procId gotomapW "zzz"
      = ([], .error (.abortMsg helpNoOptionMatchMsg))
  ∧ parseInput env0 stateWithAbort "go"
      = (["That makes no sense."], .ok stateWithAbort) := by
  refine ⟨?_, ?_, ?_, ?_⟩
  · exact (c7_pattern_fallback gmW rmW procId gotomapW "foobar").1
      "foo*" "node_a" rfl
  · exact (c7_pattern_fallback gmW rmW procId gotomapW "42").2.1 rfl
      "[0-9]+" "node_b" rfl
  · exact (c7_pattern_fallback gmW rmW procId gotomapW "zzz").2.2.1 rfl rfl
  · exact (c7_pattern_fallback gmW rmW procId gotomapW "zzz").2.2.2
      env0 stateWithAbort "go" "abort_fun" fnAbort [] (.pydict [])
      "That makes no sense." rfl rfl (by decide) rfl

/-- Counterexample for C7 as stated: the regex phase does not try *every*
registered pattern — an empty pattern (from a bare `>:` line) is skipped,
so with one registered empty pattern that regex-matches the input (Python
`re.match` with an empty pattern matches anything) the callable still
aborts instead of routing to the registered target. -/
theorem c7_counterexample :
    generatedInputGoto gmNone rmAll procId [("", "target")] "xyz"
        = ([], .error (.abortMsg helpNoOptionMatchMsg))
      ∧ rmAll "" (strLower (inputStripNL "xyz")) = true
      ∧ generatedInputGoto gmNone rmAll procId [("", "target")] "xyz"
          ≠ procId "target" := by
  refine ⟨rfl, rfl, ?_⟩
  intro h
  have h2 : exceptOk
        (generatedInputGoto gmNone rmAll procId [("", "target")] "xyz").2
      = exceptOk (procId "target").2 :=
    congrArg (fun r => exceptOk r.2) h
  rw [show exceptOk
      (generatedInputGoto gmNone rmAll procId [("", "target")] "xyz").2
        = false from rfl,
    show exceptOk (procId "target").2 = true from rfl] at h2
  exact Bool.noConfusion h2

theorem pyChunksAux_length (ps : Nat) (hps : 0 < ps) :
    ∀ (fuel : Nat) (l : List α), l.length ≤ fuel →
      (pyChunksAux ps fuel l).length = (l.length + ps - 1) / ps := by
  intro fuel
  induction fuel with
  | zero =>
    intro l hl
    have h0 : l = [] := List.length_eq_zero.mp (Nat.le_zero.mp hl)
    subst h0
    simp [pyChunksAux, Nat.div_eq_of_lt (by omega : ps - 1 < ps)]
  | succ n ih =>
    intro l hl
    cases l with
    | nil => simp [pyChunksAux, Nat.div_eq_of_lt (by omega : ps - 1 < ps)]
    | cons x xs =>
      have hlen : ((x :: xs).drop ps).length ≤ n := by
        rw [List.length_drop]
        simp only [List.length_cons] at hl ⊢
        omega
      simp only [pyChunksAux, List.length_cons]
      rw [ih _ hlen, List.length_drop]
      simp only [List.length_cons]
      rcases le_or_lt (xs.length + 1) ps with hc | hc
      · have e0 : xs.length + 1 - ps = 0 := by omega
        rw [e0, Nat.zero_add]
        have e1 : xs.length + 1 + ps - 1 = (xs.length + 1 - 1) + ps := by
          omega
        rw [e1, Nat.add_div_right _ hps,
          Nat.div_eq_of_lt (by omega : ps - 1 < ps),
          Nat.div_eq_of_lt (by omega : xs.length + 1 - 1 < ps)]
      · have e1 : xs.length + 1 - ps + ps - 1
            = (xs.length + 1 - ps - 1) + ps := by omega
        have e2 : xs.length + 1 + ps - 1 = (xs.length + 1 - 1) + ps := by
          omega
        have e3 : xs.length + 1 - 1 = (xs.length + 1 - ps - 1) + ps := by
          omega
        rw [e1, e2, Nat.add_div_right _ hps, e3, Nat.add_div_right _ hps,
          Nat.add_div_right _ hps]

theorem pyChunks_length (l : List α) (ps : Nat) (hps : 0 < ps) :
    (pyChunks l ps).length = (l.length + ps - 1) / ps :=
  pyChunksAux_length ps hps l.length l le_rfl

theorem listNodeCore_clamp (l : List String) (ps : Nat) (req : Int)
    (hps : 0 < ps) (hl : l ≠ []) :
    0 ≤ (listNodeCore l ps req).pageIndex
      ∧ (listNodeCore l ps req).pageIndex
          ≤ ((listNodeCore l ps req).npages : Int) - 1 := by
  have hle : l.isEmpty = false := by
    cases l with
    | nil => exact absurd rfl hl
    | cons a as => rfl
  have hlen : 1 ≤ l.length := by
    cases l with
    | nil => exact absurd rfl hl
    | cons a as => simp
  have hpos : 0 < (pyChunks l ps).length := by
    rw [pyChunks_length l ps hps]
    have h2 : 1 ≤ (l.length + ps - 1) / ps :=
      (Nat.le_div_iff_mul_le hps).mpr (by omega)
    omega
  simp only [listNodeCore, hle, Bool.false_eq_true, if_false]
  constructor
  · exact le_max_left 0 _
  · apply max_le
    · omega
    · exact min_le_left _ _

theorem listNodeCore_pageIndex_zero (l : List String) (ps : Nat) (req : Int)
    (hps : 0 < ps) (hnp : (listNodeCore l ps req).npages ≤ 1) :
    (listNodeCore l ps req).pageIndex = 0 := by
  by_cases hl : l = []
  · subst hl; rfl
  · have h1 := listNodeCore_clamp l ps req hps hl
    omega

theorem hasAliasKey_append (a : String) (xs ys : List PyVal) :
    hasAliasKey a (xs ++ ys) = (hasAliasKey a xs || hasAliasKey a ys) := by
  simp [hasAliasKey]

theorem hasAliasKey_map_selectOpt (a : String) (pageV l : List String) :
    (l.map (fun opt => PyVal.pydict
      [("desc", .pystr opt),
       ("goto", .pytuple [.pyfun "_select_handler",
         .pydict [("available_choices",
           .pytuple (pageV.map .pystr))]])])).any (keyHasAlias a)
      = false := by
  induction l with
  | nil => rfl
  | cons x xs ih =>
    rw [List.map_cons, List.any_cons, ih]
    rfl

theorem selectOptions_no_alias (a : String) (page : List String) :
    hasAliasKey a (selectOptions page) = false :=
  hasAliasKey_map_selectOpt a page page

theorem pagingControls_prev (np : Nat) (pi2 : Int) :
    hasAliasKey "p" (pagingControls np pi2)
      = (decide (1 < np) && decide (0 < pi2)) := by
  unfold pagingControls
  by_cases h1 : 1 < np
  · rw [if_pos h1, decide_eq_true h1]
    by_cases h2 : 0 < pi2
    · rw [if_pos h2, decide_eq_true h2]
      by_cases h3 : pi2 < (np : Int) - 1
      · rw [if_pos h3]; rfl
      · rw [if_neg h3]; rfl
    · rw [if_neg h2, decide_eq_false h2]
      by_cases h3 : pi2 < (np : Int) - 1
      · rw [if_pos h3]; rfl
      · rw [if_neg h3]; rfl
  · rw [if_neg h1, decide_eq_false h1]
    rfl

theorem pagingControls_next (np : Nat) (pi2 : Int) :
    hasAliasKey "n" (pagingControls np pi2)
      = (decide (1 < np) && decide (pi2 < (np : Int) - 1)) := by
  unfold pagingControls
  by_cases h1 : 1 < np
  · rw [if_pos h1, decide_eq_true h1]
    by_cases h3 : pi2 < (np : Int) - 1
    · rw [if_pos h3, decide_eq_true h3]
      by_cases h2 : 0 < pi2
      · rw [if_pos h2]; rfl
      · rw [if_neg h2]; rfl
    · rw [if_neg h3, decide_eq_false h3]
      by_cases h2 : 0 < pi2
      · rw [if_pos h2]; rfl
      · rw [if_neg h2]; rfl
  · rw [if_neg h1, decide_eq_false h1]
    rfl

/-- Claim C8: the list/pagination generator slices 25 items into exactly 3
pages of size 10; the requested page index is always clamped to
`[0, page_count - 1]`; the previous-page control is present exactly on
pages with positive index and the next-page control exactly below the last
page; and an empty backing list yields no item options and no paging
controls at all. -/
theorem c8_pagination (l : List String) (ps : Nat) (req : Int)
    (hps : 0 < ps) :
    (l.length = 25 → ps = 10 → (listNodeCore l ps req).npages = 3)
  ∧ (l ≠ [] →
      0 ≤ (listNodeCore l ps req).pageIndex
        ∧ (listNodeCore l ps req).pageIndex
            ≤ ((listNodeCore l ps req).npages : Int) - 1)
  ∧ hasAliasKey "p" (listNodeOptions l ps req [])
      = decide (0 < (listNodeCore l ps req).pageIndex)
  ∧ hasAliasKey "n" (listNodeOptions l ps req [])
      = decide ((listNodeCore l ps req).pageIndex
          < ((listNodeCore l ps req).npages : Int) - 1)
  ∧ (l = [] → listNodeOptions l ps req [] = []) := by
  have hopts : ∀ a : String,
      hasAliasKey a (listNodeOptions l ps req [])
        = hasAliasKey a (pagingControls (listNodeCore l ps req).npages
            (listNodeCore l ps req).pageIndex) := by
    intro a
    unfold listNodeOptions
    rw [hasAliasKey_append, hasAliasKey_append, selectOptions_no_alias]
    simp [hasAliasKey]
  refine ⟨?_, ?_, ?_, ?_, ?_⟩
  · intro h25 h10
    subst h10
    have hle : l.isEmpty = false := by
      cases l with
      | nil => simp at h25
      | cons a as => rfl
    simp only [listNodeCore, hle, Bool.false_eq_true, if_false]
    show (pyChunks l 10).length = 3
    rw [pyChunks_length l 10 (by omega), h25]
  · intro hl
    exact listNodeCore_clamp l ps req hps hl
  · rw [hopts, pagingControls_prev]
    by_cases h1 : 1 < (listNodeCore l ps req).npages
    · rw [decide_eq_true h1, Bool.true_and]
    · rw [decide_eq_false h1, Bool.false_and,
        listNodeCore_pageIndex_zero l ps req hps (by omega)]
      rfl
  · rw [hopts, pagingControls_next]
    by_cases h1 : 1 < (listNodeCore l ps req).npages
    · rw [decide_eq_true h1, Bool.true_and]
    · rw [decide_eq_false h1, Bool.false_and,
        listNodeCore_pageIndex_zero l ps req hps (by omega)]
      have hnd : ¬ ((0 : Int) < ((listNodeCore l ps req).npages : Int) - 1) := by
        omega
      rw [decide_eq_false hnd]
  · intro hl
    subst hl
    rfl

/-- Witness for C8: the concrete 25-item list with page size 10 and
requested index 5 has 3 pages with a clamped index, the paging controls
agree with the clamped index, and the empty list produces no options. -/
theorem c8_witness :
    (listNodeCore list25 10 5).npages = 3
  ∧ (0 ≤ (listNodeCore list25 10 5).pageIndex
      ∧ (listNodeCore list25 10 5).pageIndex
          ≤ ((listNodeCore list25 10 5).npages : Int) - 1)
  ∧ hasAliasKey "p" (listNodeOptions list25 10 5 [])
      = decide (0 < (listNodeCore list25 10 5).pageIndex)
  ∧ hasAliasKey "n" (listNodeOptions list25 10 5 [])
      = decide ((listNodeCore list25 10 5).pageIndex
          < ((listNodeCore list25 10 5).npages : Int) - 1)
  ∧ listNodeOptions [] 10 5 [] = [] := by
  refine ⟨(c8_pagination list25 10 5 (by decide)).1 (by decide) rfl,
    (c8_pagination list25 10 5 (by decide)).2.1 (by decide),
    (c8_pagination list25 10 5 (by decide)).2.2.1,
    (c8_pagination list25 10 5 (by decide)).2.2.2.1,
    (c8_pagination ([] : List String) 10 5 (by decide)).2.2.2.2 rfl⟩

end EvMenuModel
